import Mathlib

/-!
Shallow embedding of the message classification, notification batching and
error translation pipeline of the `slack_claude_code` repository
(`message_utils.py`, `claude_code_message_notifier.py`,
`claude_code_processor.py`, `slack_message_handler.py`), together with
theorems settling the specification claims about it.
-/

/-! ### String helpers

Python's `needle in haystack` substring test and `str.startswith`,
modelled on the character lists underlying Lean strings. -/

/-- Whether the first character list is a prefix of the second
(Python `haystack.startswith(needle)` on the underlying characters). -/
def isStartOf : List Char → List Char → Bool
  | [], _ => true
  | _ :: _, [] => false
  | a :: as, b :: bs => a == b && isStartOf as bs

/-- Whether `needle` occurs contiguously inside the second list
(Python `needle in haystack`). -/
def occursInList (needle : List Char) : List Char → Bool
  | [] => needle.isEmpty
  | b :: bs => isStartOf needle (b :: bs) || occursInList needle bs

/-- Python's `needle in haystack` on strings. -/
def occursIn (needle hay : String) : Bool :=
  occursInList needle.data hay.data

/-- The whitespace characters removed by Python's `str.strip()`
(space, tab, newline, carriage return, vertical tab, form feed). -/
def isPySpace (c : Char) : Bool :=
  c == ' ' || c == '\t' || c == '\n' || c == '\r' || c.toNat == 11 || c.toNat == 12

/-- Python `s.strip()`: drop whitespace from both ends. -/
def pyStrip (s : String) : String :=
  ⟨((s.data.dropWhile isPySpace).reverse.dropWhile isPySpace).reverse⟩

/-- Python `s.startswith(pre)`. -/
def startsWithStr (s pre : String) : Bool :=
  isStartOf pre.data s.data

theorem isStartOf_append (l r : List Char) : isStartOf l (l ++ r) = true := by
  induction l with
  | nil => rfl
  | cons a as ih => simp [isStartOf, ih]

theorem occursInList_here (n r : List Char) : occursInList n (n ++ r) = true := by
  cases n with
  | nil =>
    cases r with
    | nil => rfl
    | cons b bs => simp [occursInList, isStartOf]
  | cons a as =>
    simp only [occursInList, List.cons_append, Bool.or_eq_true]
    exact Or.inl (isStartOf_append (a :: as) r)

theorem occursInList_skip (x n r : List Char) (h : occursInList n r = true) :
    occursInList n (x ++ r) = true := by
  induction x with
  | nil => simpa using h
  | cons b bs ih => simp [occursInList, ih]

theorem occursInList_mid (a n b : List Char) :
    occursInList n (a ++ (n ++ b)) = true :=
  occursInList_skip a n (n ++ b) (occursInList_here n b)

theorem string_data_append (a b : String) : (a ++ b).data = a.data ++ b.data := rfl

theorem occursIn_mid (a n b : String) : occursIn n (a ++ (n ++ b)) = true := by
  show occursInList n.data (a ++ (n ++ b)).data = true
  rw [string_data_append, string_data_append]
  exact occursInList_mid a.data n.data b.data

/-! ### Opaque JSON-like values

The SDK message payloads carry JSON-like values (`dict`/`list` contents).
`jsonDumpsValue` abstracts Python's `json.dumps`; no claim depends on the
exact serialization. -/

/-- A JSON-like value carried opaquely by SDK messages. -/
inductive JsonValue where
  | null
  | bool (b : Bool)
  | num (n : Int)
  | str (s : String)
  | arr (items : List JsonValue)
  | obj (fields : List (String × JsonValue))


mutual

/-- Serialization of a JSON value (abstracts Python `json.dumps`). -/
def jsonDumpsValue : JsonValue → String
  | .null => "null"
  | .bool true => "true"
  | .bool false => "false"
  | .num n => toString n
  | .str s => "\"" ++ s ++ "\""
  | .arr items => "[" ++ jsonDumpsItems items ++ "]"
  | .obj fields => "\x7b" ++ jsonDumpsFields fields ++ "\x7d"

/-- Serialization of a list of JSON values, comma separated. -/
def jsonDumpsItems : List JsonValue → String
  | [] => ""
  | [v] => jsonDumpsValue v
  | v :: rest => jsonDumpsValue v ++ ", " ++ jsonDumpsItems rest

/-- Serialization of JSON object fields, comma separated. -/
def jsonDumpsFields : List (String × JsonValue) → String
  | [] => ""
  | [(k, v)] => "\"" ++ k ++ "\": " ++ jsonDumpsValue v
  | (k, v) :: rest => "\"" ++ k ++ "\": " ++ jsonDumpsValue v ++ ", " ++ jsonDumpsFields rest

end

/-! ### Data model (claude_code_sdk.types)

Tagged-union rendering of the SDK message hierarchy consumed by the core:
`AssistantMessage{content: list[ContentBlock]}`,
`UserMessage{content: str | list}`, `SystemMessage{subtype, data}`,
`ResultMessage{subtype, result, duration_ms, num_turns}`, plus unknown
message types handled by the fallback branches. -/

/-- `ToolResultBlock.content`: a string or an opaque JSON-like list. -/
inductive ToolResultContent where
  | str (s : String)
  | other (items : List JsonValue)


/-- A content block of an `AssistantMessage`: `TextBlock`, `ToolUseBlock`
(`input` is a dict, empty when absent) or `ToolResultBlock`. -/
inductive ContentBlock where
  | text (text : String)
  | toolUse (id name : String) (input : List (String × JsonValue))
  | toolResult (content : Option ToolResultContent)


/-- `UserMessage.content`: a plain string or a list of opaque values. -/
inductive UserContent where
  | str (s : String)
  | list (items : List JsonValue)


/-- The SDK `Message` tagged union. `unknown` stands for any message type
outside the four known ones (only its type name is observable). -/
inductive Message where
  | assistant (content : List ContentBlock)
  | user (content : UserContent)
  | system (subtype : String) (data : JsonValue)
  | result (subtype : String) (result : Option String) (durationMs : Int) (numTurns : Int)
  | unknown (typeName : String)


/-! ### Text Extractor (message_utils.py) -/

/-- Python truthiness of an optional string (`if message_text:`):
`None` and the empty string are falsy. -/
def optStrTruthy : Option String → Bool
  | none => false
  | some s => s ≠ ""

/-- `_extract_user_message_text`: string content is returned as is, list
content is returned as its JSON serialization (the model has no third
content shape, so Python's `str(content)` fallback is unreachable). -/
def extract_user_message_text : UserContent → Option String
  | .str s => some s
  | .list items => some (jsonDumpsValue (.arr items))

/-- `_extract_tool_use_text`: tool info rendered only when
`include_tool_info`, with the input appended when the dict is non-empty. -/
def extract_tool_use_text (id name : String) (input : List (String × JsonValue))
    (include_tool_info : Bool) : Option String :=
  if !include_tool_info then none
  else
    let tool_info := "[Tool: " ++ name ++ "(" ++ id ++ ")]"
    if !input.isEmpty then
      some (tool_info ++ " Input: " ++ jsonDumpsValue (.obj input))
    else some tool_info

/-- Python truthiness of `ToolResultBlock.content` (`None`, `""` and the
empty list are falsy). -/
def toolResultContentTruthy : Option ToolResultContent → Bool
  | none => false
  | some (.str s) => s ≠ ""
  | some (.other items) => !items.isEmpty

/-- `_extract_tool_result_text`: rendered only when the content is truthy
and `include_tool_info` holds. -/
def extract_tool_result_text (content : Option ToolResultContent)
    (include_tool_info : Bool) : Option String :=
  if !(toolResultContentTruthy content && include_tool_info) then none
  else
    match content with
    | some (.str s) => some ("[Tool Result: " ++ s ++ "]")
    | some (.other items) => some ("[Tool Result: " ++ jsonDumpsValue (.arr items) ++ "]")
    | none => none

/-- `_extract_content_block_text`. -/
def extract_content_block_text (b : ContentBlock) (include_tool_info : Bool) :
    Option String :=
  match b with
  | .text t => some t
  | .toolUse id name input => extract_tool_use_text id name input include_tool_info
  | .toolResult content => extract_tool_result_text content include_tool_info

/-- `_extract_assistant_message_text`: collect the truthy block texts
(`if block_text:` drops `None` and `""`), join with newline, `None` when
nothing was collected. -/
def extract_assistant_message_text (blocks : List ContentBlock)
    (include_tool_info : Bool) : Option String :=
  let text_parts := blocks.filterMap fun b =>
    match extract_content_block_text b include_tool_info with
    | some t => if t ≠ "" then some t else none
    | none => none
  if text_parts.isEmpty then none else some (String.intercalate "\n" text_parts)

/-- `_extract_system_message_text`. -/
def extract_system_message_text (subtype : String) (include_tool_info : Bool) :
    Option String :=
  if include_tool_info then some ("[System: " ++ subtype ++ "]") else none

/-- `_extract_result_message_text`: the `result` field is preferred when
truthy (`if message.result:`), otherwise a summary when
`include_tool_info`, otherwise `None`. -/
def extract_result_message_text (subtype : String) (result : Option String)
    (durationMs : Int) (numTurns : Int) (include_tool_info : Bool) : Option String :=
  if optStrTruthy result then result
  else if include_tool_info then
    some ("[Result: " ++ subtype ++ ", Duration: " ++ toString durationMs ++
      "ms, Turns: " ++ toString numTurns ++ "]")
  else none

/-- `_extract_unknown_message_text`. -/
def extract_unknown_message_text (typeName : String) (include_tool_info : Bool) :
    Option String :=
  if include_tool_info then some ("[Unknown Message Type: " ++ typeName ++ "]") else none

/-- `extract_message_text` (message_utils.py): dispatch on the message
variant; `include_tool_info` defaults to `False` in the source. -/
def extract_message_text (m : Message) (include_tool_info : Bool := false) :
    Option String :=
  match m with
  | .user content => extract_user_message_text content
  | .assistant blocks => extract_assistant_message_text blocks include_tool_info
  | .system subtype _ => extract_system_message_text subtype include_tool_info
  | .result subtype result durationMs numTurns =>
      extract_result_message_text subtype result durationMs numTurns include_tool_info
  | .unknown typeName => extract_unknown_message_text typeName include_tool_info

/-! ### Notification Batcher (claude_code_message_notifier.py)

`ClaudeCodeMessageNotifier` owns a single mutable field `tools_count`,
modelled as an explicit `Nat` threaded through the handlers; each handler
returns the emitted message list together with the new counter. -/

/-- `__init__`: the counter starts at 0. -/
def initial_tools_count : Nat := 0

/-- `_handle_tools_message`: increment; on a multiple of 10 notify with the
incremented count and reset, otherwise stay silent. -/
def handle_tools_message (tools_count : Nat) : List String × Nat :=
  let c := tools_count + 1
  if c % 10 = 0 then (["Used tools " ++ toString c ++ " times"], 0)
  else ([], c)

/-- `_handle_non_tools_message`: flush the accumulated tool count first when
positive (resetting it), then append the current text when truthy. -/
def handle_non_tools_message (tools_count : Nat) (message_text : Option String) :
    List String × Nat :=
  let flushed : List String × Nat :=
    if tools_count > 0 then
      (["Used tools " ++ toString tools_count ++ " times"], 0)
    else ([], tools_count)
  if optStrTruthy message_text then
    (flushed.1 ++ [message_text.getD ""], flushed.2)
  else flushed

/-- Rule 1 of `_is_tools_message`: an `AssistantMessage` containing a
`ToolUseBlock` or `ToolResultBlock`. -/
def assistant_has_tool_blocks : Message → Bool
  | .assistant blocks => blocks.any fun b =>
      match b with
      | .toolUse _ _ _ => true
      | .toolResult _ => true
      | .text _ => false
  | _ => false

/-- Rule 2 of `_is_tools_message`:
`hasattr(message, "content") and isinstance(message.content, list)`.
`AssistantMessage.content` is a `list[ContentBlock]`, so the test holds for
every assistant message; `UserMessage.content` is a list exactly in its
list-shaped variant; `SystemMessage`, `ResultMessage` and unknown messages
carry no `content` attribute. -/
def content_is_list : Message → Bool
  | .assistant _ => true
  | .user (.list _) => true
  | _ => false

/-- Rule 3 of `_is_tools_message`: the extracted text is truthy and looks
like JSON data (after stripping it starts with a bracket or brace, or it
contains a `"type":` or `"tool_use_id":` substring). -/
def text_looks_like_json : Option String → Bool
  | none => false
  | some t =>
      (t ≠ "") &&
      (startsWithStr (pyStrip t) "[" || startsWithStr (pyStrip t) "\x7b" ||
        occursIn "\"type\":" t || occursIn "\"tool_use_id\":" t)

/-- `_is_tools_message`: the four rules in source order (first hit wins);
the final fallback classifies text-free messages as tools/metadata. -/
def is_tools_message (m : Message) (message_text : Option String) : Bool :=
  assistant_has_tool_blocks m ||
  content_is_list m ||
  text_looks_like_json message_text ||
  message_text.isNone

/-- `process_message`: extract once (with the `include_tool_info=False`
default), classify, and dispatch to the matching handler. -/
def process_message (tools_count : Nat) (m : Message) : List String × Nat :=
  let message_text := extract_message_text m
  if is_tools_message m message_text then handle_tools_message tools_count
  else handle_non_tools_message tools_count message_text

/-- `get_pending_tools_notification`: hand out the pending flush (resetting
the counter) when positive, `None` otherwise. -/
def get_pending_tools_notification (tools_count : Nat) : Option String × Nat :=
  if tools_count > 0 then
    (some ("Used tools " ++ toString tools_count ++ " times"), 0)
  else (none, tools_count)

/-- `reset_count`: unconditionally zero the counter. -/
def reset_count : Nat → Nat := fun _ => 0

/-- A Batcher-level event: the classification outcome together with the
text handed to the non-tools handler. -/
inductive BatchEvent where
  | tool
  | content (message_text : Option String)

/-- One Batcher transition on a classified event. -/
def batchStep (tools_count : Nat) : BatchEvent → List String × Nat
  | .tool => handle_tools_message tools_count
  | .content message_text => handle_non_tools_message tools_count message_text

/-- Run the Batcher over a sequence of classified events, collecting the
emission of every transition. -/
def batchRun (tools_count : Nat) : List BatchEvent → List (List String) × Nat
  | [] => ([], tools_count)
  | e :: es =>
    let step := batchStep tools_count e
    let rest := batchRun step.2 es
    (step.1 :: rest.1, rest.2)

/-! ### Error translation (slack_message_handler.py, claude_code_processor.py) -/

/-- `add_auto_send_prefix` (slack_message_handler.py): every text sent via
`send_thread_reply` gets this prefix at the transport layer. -/
def add_auto_send_prefix (message : String) : String :=
  "[Auto-sent] " ++ message

/-- `create_error_details` (slack_message_handler.py): the dictionary built
from a caught exception. `error_type` is Python's `type(error).__name__`,
`tb` the `traceback.format_exc()` string. -/
structure ErrorDetails where
  error_type : String
  error_message : String
  tb : String
  function : String
  context : Option String

/-- `create_error_details` as a constructor function. -/
def create_error_details (error_type error_message tb function : String)
    (context : Option String) : ErrorDetails :=
  ⟨error_type, error_message, tb, function, context⟩

/-- The user-facing text assembled by `send_detailed_error_to_slack` and
handed to `send_thread_reply`. `dateStr` stands for
`datetime.now().strftime("%Y%m%d")`, a clock read modelled as an input; the
`context` key falls back to a fixed phrase when absent (`dict.get`). -/
def detailed_error_text (d : ErrorDetails) (dateStr : String) : String :=
  "🚨 **An error occurred**\n\n**Error Type**: " ++
  (d.error_type ++
  ("\n**Error Message**: " ++
  (d.error_message ++
  ("\n**Location**: " ++
  (d.function ++
  ("\n\n**Details**:\n```\n" ++
  ((d.context.getD "No context information available") ++
  ("\n```\n\nDetailed stack trace has been logged to the log file.\nLog file: `logs/slack_monitor_" ++
  (dateStr ++ ".log`")))))))))

/-- The upstream failures caught inside `_execute_claude_code_query`, with
the data the handlers read (`str(error)`, and the exit code carried by
`ProcessError`). -/
inductive UpstreamFailure where
  | decodeError (msg : String)
  | connectionError (msg : String)
  | notFoundError (msg : String)
  | processError (msg : String) (exitCode : Int)

/-- The `custom_message` each CLI error handler passes to
`send_claude_code_error_message`, which forwards it unchanged to
`send_thread_reply`. -/
def claude_code_error_text : UpstreamFailure → String
  | .decodeError _ =>
      "⚠️ A data parsing error occurred during processing, but partial results will be provided."
  | .connectionError _ =>
      "❌ An error occurred connecting to Claude Code. Please wait and try again."
  | .notFoundError _ =>
      "❌ Claude Code CLI not found. Please check the installation."
  | .processError _ exitCode =>
      "⚠️ An error occurred in the Claude Code process (exit code: " ++
      (toString exitCode ++ "). Partial results will be provided.")

/-- How the async iteration in `_execute_claude_code_query` stopped:
normal exhaustion, or one of the four caught upstream failures. -/
inductive StreamEnd where
  | normal
  | failed (f : UpstreamFailure)

/-- `_send_pending_notification`: forward the pending flush when present. -/
def send_pending (tools_count : Nat) : List String × Nat :=
  match get_pending_tools_notification tools_count with
  | (some t, c) => ([t], c)
  | (none, c) => ([], c)

/-- What `_execute_claude_code_query` does after the message loop stops:
the texts forwarded to the sink, the final counter, and the returned
message list. -/
structure QueryOutcome where
  sends : List String
  finalCount : Nat
  returned : List Message

/-- The tail of `_execute_claude_code_query` after the loop stopped with
`e`, given the notifier counter and the messages collected so far: the
decode and process handlers fall through to `_send_pending_notification`,
while the connection and not-found handlers `return messages` early,
skipping the pending flush; the collected list is returned in all cases. -/
def query_tail (e : StreamEnd) (tools_count : Nat) (collected : List Message) :
    QueryOutcome :=
  match e with
  | .normal =>
      let p := send_pending tools_count
      ⟨p.1, p.2, collected⟩
  | .failed (.decodeError msg) =>
      let p := send_pending tools_count
      ⟨claude_code_error_text (.decodeError msg) :: p.1, p.2, collected⟩
  | .failed (.connectionError msg) =>
      ⟨[claude_code_error_text (.connectionError msg)], tools_count, collected⟩
  | .failed (.notFoundError msg) =>
      ⟨[claude_code_error_text (.notFoundError msg)], tools_count, collected⟩
  | .failed (.processError msg exitCode) =>
      let p := send_pending tools_count
      ⟨claude_code_error_text (.processError msg exitCode) :: p.1, p.2, collected⟩

/-! ### Helper lemmas -/

theorem handle_tools_message_count_le (c : Nat) (h : c ≤ 9) :
    (handle_tools_message c).2 ≤ 9 := by
  unfold handle_tools_message
  by_cases h10 : (c + 1) % 10 = 0 <;> simp [h10] <;> omega

theorem handle_non_tools_message_count (c : Nat) (mt : Option String) :
    (handle_non_tools_message c mt).2 = 0 := by
  unfold handle_non_tools_message
  by_cases h : c > 0 <;> by_cases h2 : optStrTruthy mt <;> simp [h, h2] <;> omega

theorem send_pending_count (c : Nat) : (send_pending c).2 = 0 := by
  unfold send_pending get_pending_tools_notification
  by_cases h : c > 0 <;> simp [h] <;> omega

theorem batchStep_count_le (c : Nat) (h : c ≤ 9) (e : BatchEvent) :
    (batchStep c e).2 ≤ 9 := by
  cases e with
  | tool => exact handle_tools_message_count_le c h
  | content mt =>
      show (handle_non_tools_message c mt).2 ≤ 9
      rw [handle_non_tools_message_count]
      omega

theorem batchRun_count_le (evs : List BatchEvent) :
    ∀ c : Nat, c ≤ 9 → (batchRun c evs).2 ≤ 9 := by
  induction evs with
  | nil => intro c h; simpa [batchRun] using h
  | cons e es ih =>
      intro c h
      simp only [batchRun]
      exact ih _ (batchStep_count_le c h e)

theorem filterMap_keep_nonempty (texts : List String) (h : ∀ t ∈ texts, t ≠ "") :
    (texts.filterMap fun t => if t ≠ "" then some t else none) = texts := by
  induction texts with
  | nil => rfl
  | cons a as ih =>
      have ha : a ≠ "" := h a (by simp)
      have ih' := ih (fun t ht => h t (by simp [ht]))
      rw [List.filterMap_cons, if_pos ha]
      exact congrArg (List.cons a) ih'

/-! ### Claim theorems -/

/-- Claim C1: on every Tool-classified event the Batcher increments the
counter; when the incremented counter is a multiple of 10 it emits exactly
the singleton flush list and resets the counter to 0, otherwise it emits
the empty list; after exactly 10 consecutive Tool events from a fresh
counter, the first 9 transitions emit nothing and the 10th emits
`["Used tools 10 times"]`, leaving the counter at 0. -/
theorem C1_tool_transition :
    (∀ tools_count : Nat,
      handle_tools_message tools_count =
        (if (tools_count + 1) % 10 = 0 then
           ["Used tools " ++ toString (tools_count + 1) ++ " times"]
         else [],
         if (tools_count + 1) % 10 = 0 then 0 else tools_count + 1)) ∧
    (batchRun 0 (List.replicate 10 BatchEvent.tool)).1 =
      List.replicate 9 [] ++ [["Used tools 10 times"]] ∧
    (batchRun 0 (List.replicate 10 BatchEvent.tool)).2 = 0 := by
  refine ⟨fun c => ?_, by decide, by decide⟩
  unfold handle_tools_message
  by_cases h : (c + 1) % 10 = 0 <;> simp [h]

/-- Claim C2: on a Content-classified event the Batcher's emission is the
flush singleton (present exactly when the counter was positive, with the
counter reset) followed by the extracted text when it is truthy, so a
tool-count message always sits in front of the content message of the same
emission; the sequence Tool, Tool, Tool, Content("hello") yields emissions
`[]`, `[]`, `[]`, `["Used tools 3 times", "hello"]`. -/
theorem C2_content_transition :
    (∀ (tools_count : Nat) (message_text : Option String),
      handle_non_tools_message tools_count message_text =
        ((if tools_count > 0 then
            ["Used tools " ++ toString tools_count ++ " times"]
          else []) ++
          (if optStrTruthy message_text then [message_text.getD ""] else []),
         0)) ∧
    batchRun 0
        [BatchEvent.tool, BatchEvent.tool, BatchEvent.tool,
         BatchEvent.content (some "hello")] =
      ([[], [], [], ["Used tools 3 times", "hello"]], 0) := by
  refine ⟨fun c mt => ?_, by decide⟩
  unfold handle_non_tools_message
  by_cases h : c > 0 <;> by_cases h2 : optStrTruthy mt <;> simp [h, h2] <;> omega

/-- Claim C5: `get_pending_tools_notification` (the stream-end flush) hands
out the flush message and resets the counter when the counter is positive,
and yields nothing at counter 0; hence a second flush right after a
flushing one yields nothing; after Tool×4 the counter is 4 and the flush is
`["Used tools 4 times"]`. -/
theorem C5_finalize (tools_count : Nat) (h : 0 < tools_count) :
    send_pending tools_count =
      (["Used tools " ++ toString tools_count ++ " times"], 0) ∧
    send_pending (send_pending tools_count).2 = ([], 0) ∧
    send_pending 0 = ([], 0) ∧
    (batchRun 0 (List.replicate 4 BatchEvent.tool)).2 = 4 ∧
    send_pending (batchRun 0 (List.replicate 4 BatchEvent.tool)).2 =
      (["Used tools 4 times"], 0) := by
  have h1 : send_pending tools_count =
      (["Used tools " ++ toString tools_count ++ " times"], 0) := by
    simp [send_pending, get_pending_tools_notification, h]
  refine ⟨h1, ?_, by decide, by decide, by decide⟩
  rw [h1]
  show send_pending 0 = ([], 0)
  decide

theorem C5_finalize_witness :
    0 < 4 ∧
    (send_pending 4 = (["Used tools " ++ toString 4 ++ " times"], 0) ∧
     send_pending (send_pending 4).2 = ([], 0) ∧
     send_pending 0 = ([], 0) ∧
     (batchRun 0 (List.replicate 4 BatchEvent.tool)).2 = 4 ∧
     send_pending (batchRun 0 (List.replicate 4 BatchEvent.tool)).2 =
       (["Used tools 4 times"], 0)) :=
  ⟨by decide, C5_finalize 4 (by decide)⟩

/-- Claim C9: starting from a counter in `[0, 9]`, every single Batcher
operation (tool transition, content transition, stream-end flush, reset)
and every run of transitions leaves the counter in `[0, 9]`: each path that
reaches the threshold 10 resets within the same operation (the counter is a
`Nat`, so it can never go negative). -/
theorem C9_counter_invariant (tools_count : Nat) (h : tools_count ≤ 9)
    (message_text : Option String) (events : List BatchEvent) :
    initial_tools_count ≤ 9 ∧
    (handle_tools_message tools_count).2 ≤ 9 ∧
    (handle_non_tools_message tools_count message_text).2 ≤ 9 ∧
    (send_pending tools_count).2 ≤ 9 ∧
    reset_count tools_count ≤ 9 ∧
    (batchRun tools_count events).2 ≤ 9 := by
  refine ⟨by decide, handle_tools_message_count_le tools_count h, ?_, ?_,
    by simp [reset_count], batchRun_count_le events tools_count h⟩
  · rw [handle_non_tools_message_count]; omega
  · rw [send_pending_count]; omega

theorem C9_counter_invariant_witness :
    (9 : Nat) ≤ 9 ∧
    (initial_tools_count ≤ 9 ∧
     (handle_tools_message 9).2 ≤ 9 ∧
     (handle_non_tools_message 9 (some "x")).2 ≤ 9 ∧
     (send_pending 9).2 ≤ 9 ∧
     reset_count 9 ≤ 9 ∧
     (batchRun 9 [BatchEvent.tool, BatchEvent.content none]).2 ≤ 9) :=
  ⟨by decide,
   C9_counter_invariant 9 (by decide) (some "x") [BatchEvent.tool, BatchEvent.content none]⟩

/-- Claim C3 (code evaluation): an Assistant message whose block sequence
holds only a Text block with plain, non-JSON-looking text is nevertheless
classified as a tools message. Rule 1 (tool blocks) does not fire and the
text heuristic does not fire; classification as Tool comes solely from the
`isinstance(message.content, list)` check, which is satisfied by every
`AssistantMessage` since its `content` is a `list[ContentBlock]`. -/
theorem C3_text_only_assistant_classified_as_tool :
    assistant_has_tool_blocks (.assistant [.text "hello"]) = false ∧
    extract_message_text (.assistant [.text "hello"]) false = some "hello" ∧
    text_looks_like_json (extract_message_text (.assistant [.text "hello"]) false)
      = false ∧
    content_is_list (.assistant [.text "hello"]) = true ∧
    is_tools_message (.assistant [.text "hello"])
      (extract_message_text (.assistant [.text "hello"]) false) = true := by
  refine ⟨rfl, rfl, ?_, rfl, rfl⟩
  decide

/-- Claim C4: classification reads the `include_tool_info=False` extraction
(the `extract_message_text` default used by `process_message`), and on
every Content-classified message the emission equals the non-tools handler
applied to the `include_tool_info=True` extraction: on such messages the
two extractions provably coincide, so the forwarded content text equals the
extraction with tool info included. -/
theorem C4_forwarded_content_text (m : Message) (tools_count : Nat)
    (h : is_tools_message m (extract_message_text m false) = false) :
    extract_message_text m true = extract_message_text m false ∧
    process_message tools_count m =
      handle_non_tools_message tools_count (extract_message_text m true) := by
  have heq : extract_message_text m true = extract_message_text m false := by
    cases m with
    | assistant blocks =>
        simp [is_tools_message, content_is_list] at h
    | user content => rfl
    | system subtype data =>
        simp [is_tools_message, extract_message_text,
          extract_system_message_text] at h
    | result subtype result durationMs numTurns =>
        by_cases hr : optStrTruthy result
        · simp [extract_message_text, extract_result_message_text, hr]
        · simp [is_tools_message, extract_message_text,
            extract_result_message_text, hr] at h
    | unknown typeName =>
        simp [is_tools_message, extract_message_text,
          extract_unknown_message_text] at h
  refine ⟨heq, ?_⟩
  rw [show process_message tools_count m =
      (if is_tools_message m (extract_message_text m false) then
        handle_tools_message tools_count
      else handle_non_tools_message tools_count (extract_message_text m false))
    from rfl, h, heq]
  simp

theorem C4_forwarded_content_text_witness :
    is_tools_message (.user (.str "hi"))
        (extract_message_text (.user (.str "hi")) false) = false ∧
    (extract_message_text (.user (.str "hi")) true =
       extract_message_text (.user (.str "hi")) false ∧
     process_message 1 (.user (.str "hi")) =
       handle_non_tools_message 1
         (extract_message_text (.user (.str "hi")) true)) :=
  ⟨by decide, C4_forwarded_content_text (.user (.str "hi")) 1 (by decide)⟩

/-- Claim C8: the Extractor on an Assistant message joins the included
(truthy) block texts with a newline and returns `none` when nothing is
included; for a block list of Text blocks with non-empty texts the result
is their newline join for either tool-info flag, so two Text blocks "a" and
"b" give `"a\nb"` regardless of `include_tool_info`. -/
theorem C8_assistant_extraction (texts : List String)
    (h : ∀ t ∈ texts, t ≠ "") (include_tool_info : Bool) :
    extract_message_text (.assistant (texts.map ContentBlock.text))
        include_tool_info =
      (if texts.isEmpty then none
       else some (String.intercalate "\n" texts)) ∧
    extract_message_text (.assistant [.text "a", .text "b"]) include_tool_info =
      some "a\nb" := by
  constructor
  · show extract_assistant_message_text (texts.map ContentBlock.text)
        include_tool_info = _
    unfold extract_assistant_message_text
    rw [List.filterMap_map]
    rw [show ((fun b => match extract_content_block_text b include_tool_info with
        | some t => if t ≠ "" then some t else none
        | none => none) ∘ ContentBlock.text) =
        (fun t => if t ≠ "" then some t else none) from rfl]
    rw [filterMap_keep_nonempty texts h]
  · cases include_tool_info <;> decide

theorem C8_assistant_extraction_witness :
    (∀ t ∈ ["a", "b"], t ≠ "") ∧
    (extract_message_text (.assistant (["a", "b"].map ContentBlock.text)) true =
       (if (["a", "b"] : List String).isEmpty then none
        else some (String.intercalate "\n" ["a", "b"])) ∧
     extract_message_text (.assistant [.text "a", .text "b"]) true =
       some "a\nb") :=
  ⟨by decide, C8_assistant_extraction ["a", "b"] (by decide) true⟩

/-- Claim C6: on a `ProcessError` (agent exited non-zero) the handler keeps
the collected messages, and the first text forwarded to the sink is the
fixed process-error remediation, whose body includes the process's exit
code as a substring. -/
theorem C6_process_exit_error (msg : String) (exitCode : Int) (tools_count : Nat)
    (collected : List Message) :
    (query_tail (.failed (.processError msg exitCode)) tools_count collected).returned
      = collected ∧
    (query_tail (.failed (.processError msg exitCode)) tools_count collected).sends.head?
      = some ("⚠️ An error occurred in the Claude Code process (exit code: " ++
          (toString exitCode ++ "). Partial results will be provided.")) ∧
    occursIn (toString exitCode)
      (claude_code_error_text (.processError msg exitCode)) = true := by
  refine ⟨rfl, rfl, ?_⟩
  show occursIn (toString exitCode)
    ("⚠️ An error occurred in the Claude Code process (exit code: " ++
      (toString exitCode ++ "). Partial results will be provided.")) = true
  exact occursIn_mid _ _ _

/-- Claim C7 counterexample: for a configuration failure (a caught
`ValueError`) the text handed to the sink is built by
`send_detailed_error_to_slack` from `create_error_details`, and it contains
the failure's raw type name `"ValueError"` verbatim — refuting the claim
that the forwarded text never contains the raw type name. -/
theorem C7_counterexample_type_name_forwarded :
    occursIn "ValueError"
      (detailed_error_text
        (create_error_details "ValueError" "Invalid cwd" "Traceback: boom"
          "_process_with_claude_code" (some "Channel: C1, User: U1"))
        "20260101") = true := by
  decide

/-- Claim C7 (amended): the four stream-failure handlers forward a fixed
remediation text that depends on nothing but the kind (and, for process
errors, the exit code) and contains neither the exception type name nor any
trace material; configuration and unclassified failures are forwarded
through the detailed template, which interpolates the failure's type name
and message but is independent of the recorded stack trace. -/
theorem C7_amended_failure_texts :
    (∀ (error_type error_message tb tb2 function : String)
       (context : Option String) (dateStr : String),
      detailed_error_text
          (create_error_details error_type error_message tb function context)
          dateStr =
        detailed_error_text
          (create_error_details error_type error_message tb2 function context)
          dateStr) ∧
    (∀ (error_type error_message tb function : String)
       (context : Option String) (dateStr : String),
      occursIn error_type
        (detailed_error_text
          (create_error_details error_type error_message tb function context)
          dateStr) = true) ∧
    (∀ (msg msg2 : String) (exitCode : Int),
      claude_code_error_text (.decodeError msg) =
        claude_code_error_text (.decodeError msg2) ∧
      claude_code_error_text (.connectionError msg) =
        claude_code_error_text (.connectionError msg2) ∧
      claude_code_error_text (.notFoundError msg) =
        claude_code_error_text (.notFoundError msg2) ∧
      claude_code_error_text (.processError msg exitCode) =
        claude_code_error_text (.processError msg2 exitCode)) ∧
    (occursIn "CLIJSONDecodeError" (claude_code_error_text (.decodeError "x")) = false ∧
     occursIn "CLIConnectionError" (claude_code_error_text (.connectionError "x")) = false ∧
     occursIn "CLINotFoundError" (claude_code_error_text (.notFoundError "x")) = false ∧
     occursIn "ProcessError" (claude_code_error_text (.processError "x" 1)) = false ∧
     occursIn "Traceback" (claude_code_error_text (.decodeError "x")) = false) := by
  refine ⟨fun a b c d e f g => rfl, ?_, fun a b c => ⟨rfl, rfl, rfl, rfl⟩,
    by decide, by decide, by decide, by decide, by decide⟩
  intro error_type error_message tb function context dateStr
  exact occursIn_mid _ _ _

/-- Claim C10: after the stream stops, the pending tool-count flush is
forwarded exactly when the stream ended normally or with a decode or
process failure (the handlers fall through to the pending-notification
send, leaving the counter at 0), while the connection and not-found
handlers return the collected messages early, forwarding only their fixed
remediation and silently discarding the positive counter. -/
theorem C10_end_of_stream_flush (tools_count : Nat) (h : 0 < tools_count)
    (msg : String) (exitCode : Int) (collected : List Message) :
    query_tail .normal tools_count collected =
      ⟨["Used tools " ++ toString tools_count ++ " times"], 0, collected⟩ ∧
    query_tail (.failed (.decodeError msg)) tools_count collected =
      ⟨[claude_code_error_text (.decodeError msg),
        "Used tools " ++ toString tools_count ++ " times"], 0, collected⟩ ∧
    query_tail (.failed (.processError msg exitCode)) tools_count collected =
      ⟨[claude_code_error_text (.processError msg exitCode),
        "Used tools " ++ toString tools_count ++ " times"], 0, collected⟩ ∧
    query_tail (.failed (.connectionError msg)) tools_count collected =
      ⟨[claude_code_error_text (.connectionError msg)], tools_count, collected⟩ ∧
    query_tail (.failed (.notFoundError msg)) tools_count collected =
      ⟨[claude_code_error_text (.notFoundError msg)], tools_count, collected⟩ := by
  have hp : send_pending tools_count =
      (["Used tools " ++ toString tools_count ++ " times"], 0) := by
    simp [send_pending, get_pending_tools_notification, h]
  refine ⟨?_, ?_, ?_, rfl, rfl⟩ <;> simp [query_tail, hp]

theorem C10_end_of_stream_flush_witness :
    0 < 3 ∧
    (query_tail .normal 3 [] =
       ⟨["Used tools " ++ toString 3 ++ " times"], 0, []⟩ ∧
     query_tail (.failed (.decodeError "bad json")) 3 [] =
       ⟨[claude_code_error_text (.decodeError "bad json"),
         "Used tools " ++ toString 3 ++ " times"], 0, []⟩ ∧
     query_tail (.failed (.processError "boom" 2)) 3 [] =
       ⟨[claude_code_error_text (.processError "boom" 2),
         "Used tools " ++ toString 3 ++ " times"], 0, []⟩ ∧
     query_tail (.failed (.connectionError "bad json")) 3 [] =
       ⟨[claude_code_error_text (.connectionError "bad json")], 3, []⟩ ∧
     query_tail (.failed (.notFoundError "bad json")) 3 [] =
       ⟨[claude_code_error_text (.notFoundError "bad json")], 3, []⟩) :=
  ⟨by decide, C10_end_of_stream_flush 3 (by decide) "bad json" 2 []⟩
